import Mathlib

/-!
Verification of the matching engine of pass.py, a line-oriented scanner for
hardcoded credentials.  The development embeds the five core functions of the
source (check_exclude_pattern, can_analyze_file, build_bad_words,
build_regex_analyzers via a regex AST, check_file_handler, start_digging)
as executable Lean definitions and proves the specified properties about them.

Regular expressions are embedded as an AST together with a backtracking
evaluator that reproduces the semantics of the Python re module on the
fragment used by the source: character classes, concatenation, alternation
(leftmost alternative first), greedy option, and greedy star of a character
class.  The evaluator returns the list of all possible remaining suffixes in
backtracking priority order, so the head of that list corresponds to the
match Python finds first.
-/

namespace PassFinder

/-- Syntax of the regex fragment used by pass.py: empty pattern, single
character class, concatenation, alternation, greedy option and greedy star
of a character class. -/
inductive RE where
  | eps : RE
  | cls : (Char → Bool) → RE
  | seq : RE → RE → RE
  | alt : RE → RE → RE
  | opt : RE → RE
  | starCls : (Char → Bool) → RE

/-- All suffixes reachable by letting a greedy star of the class p consume a
prefix of the input, longest consumption first (the priority order in which a
backtracking engine revisits a greedy star). -/
def greedyTails (p : Char → Bool) : List Char → List (List Char)
  | [] => [[]]
  | c :: s => if p c then greedyTails p s ++ [c :: s] else [c :: s]

/-- Backtracking evaluation: the list of suffixes remaining after every way
the pattern can match a prefix of the input, in the priority order of a
Python-style backtracking engine (leftmost alternative first, greedy
quantifiers longest first, later parts backtracked before earlier ones). -/
def RE.run : RE → List Char → List (List Char)
  | .eps, s => [s]
  | .cls _, [] => []
  | .cls p, c :: s => if p c then [s] else []
  | .seq a b, s => (a.run s).flatMap (fun t => b.run t)
  | .alt a b, s => a.run s ++ b.run s
  | .opt a, s => a.run s ++ [s]
  | .starCls p, s => greedyTails p s

/-- Fuel-driven worker for findall: scan left to right, at each position take
the first (highest-priority) match if any, record its text and resume after
it; on an empty match or no match advance one character.  The fuel is an
upper bound on the number of scan steps; findall supplies length + 1 which is
always sufficient because every step consumes at least one character of the
input. -/
def findallAux (r : RE) : Nat → List Char → List String
  | 0, _ => []
  | _ + 1, [] =>
    match (r.run []).head? with
    | some _ => [""]
    | none => []
  | fuel + 1, c :: s =>
    match (r.run (c :: s)).head? with
    | none => findallAux r fuel s
    | some t =>
      let n := (c :: s).length - t.length
      if n = 0 then "" :: findallAux r fuel s
      else String.mk ((c :: s).take n) :: findallAux r fuel t

/-- Embedding of pattern.findall(line): the list of texts of all
non-overlapping matches, scanning left to right, each match being the first
one the backtracking engine finds at its position. -/
def findall (r : RE) (line : String) : List String :=
  findallAux r (line.length + 1) line.data

/-- Embedding of the truthiness of re.search: does the pattern match anywhere
in the line. -/
def re_search (r : RE) (line : String) : Bool :=
  !(findall r line).isEmpty

/-- Embedding of the truthiness of pattern.match(line): does the pattern
match a prefix of the line starting at position 0. -/
def re_match (r : RE) (line : String) : Bool :=
  !(r.run line.data).isEmpty

/-- Source line 17: the default keyword list. -/
def DEFAULT_BAD_WORDS : List String :=
  ["token", "oauth", "secret", "pass", "password", "senha"]

/-- Source lines 21 to 26, check_exclude_pattern: true when some compiled
pattern matches the line from position 0, returning at the first match;
false for the empty pattern list. -/
def check_exclude_pattern : List RE → String → Bool
  | [], _ => false
  | p :: ps, line => if re_match p line then true else check_exclude_pattern ps line

/-- Membership of a character in the body of a glob character class, with
regex-style ranges such as a-z. -/
def class_char_match : List Char → Char → Bool
  | a :: '-' :: b :: rest, c =>
    (Nat.ble a.toNat c.toNat && Nat.ble c.toNat b.toNat) || class_char_match rest c
  | a :: rest, c => a == c || class_char_match rest c
  | [], _ => false

/-- Scan for the closing bracket of a glob character class, returning the
content before it and the rest of the pattern after it. -/
def find_close : List Char → Option (List Char × List Char)
  | [] => none
  | ']' :: rest => some ([], rest)
  | c :: rest => (find_close rest).map (fun pr => (c :: pr.1, pr.2))

/-- Body of a glob class: a leading closing bracket is literal content, as in
fnmatch.translate. -/
def split_class_body : List Char → Option (List Char × List Char)
  | ']' :: rest => (find_close rest).map (fun pr => (']' :: pr.1, pr.2))
  | s => find_close s

/-- Split a glob class at the point just after its opening bracket: returns
the negation flag, the class body and the rest of the pattern, or none when
the bracket is unmatched (in which case fnmatch treats it as a literal). -/
def split_class : List Char → Option (Bool × List Char × List Char)
  | '!' :: rest => (split_class_body rest).map (fun pr => (true, pr.1, pr.2))
  | s => (split_class_body s).map (fun pr => (false, pr.1, pr.2))

/-- Fuel-driven glob matcher with the semantics of fnmatch.translate: star
matches any sequence including separators, question mark any one character,
bracket classes with optional leading negation, everything else literally,
anchored at both ends.  Every recursive call strictly decreases the sum of
the pattern and input lengths, so the fuel supplied by fnmatch is always
sufficient. -/
def glob_match_fuel : Nat → List Char → List Char → Bool
  | 0, _, _ => false
  | _ + 1, [], s => s.isEmpty
  | fuel + 1, '*' :: ps, s =>
    glob_match_fuel fuel ps s ||
      (match s with
       | [] => false
       | _ :: s2 => glob_match_fuel fuel ('*' :: ps) s2)
  | fuel + 1, '?' :: ps, s =>
    (match s with
     | [] => false
     | _ :: s2 => glob_match_fuel fuel ps s2)
  | fuel + 1, '[' :: ps, s =>
    (match split_class ps with
     | none =>
       match s with
       | [] => false
       | c :: s2 => c == '[' && glob_match_fuel fuel ps s2
     | some (neg, content, rest) =>
       match s with
       | [] => false
       | c :: s2 => (class_char_match content c != neg) && glob_match_fuel fuel rest s2)
  | fuel + 1, p :: ps, s =>
    (match s with
     | [] => false
     | c :: s2 => p == c && glob_match_fuel fuel ps s2)

/-- Embedding of fnmatch.fnmatch(name, pattern) on a POSIX host, where
os.path.normcase is the identity. -/
def fnmatch (name pattern : String) : Bool :=
  glob_match_fuel (pattern.length + name.length + 1) pattern.data name.data

/-- Source lines 29 to 37, can_analyze_file: reject when the include list is
non-empty and no include glob matches; otherwise reject when the exclude
list is non-empty and some exclude glob matches; otherwise accept. -/
def can_analyze_file (include_paths exclude_paths : List String) (path : String) : Bool :=
  if !include_paths.isEmpty && !(include_paths.any (fun p => fnmatch path p)) then false
  else if !exclude_paths.isEmpty && exclude_paths.any (fun p => fnmatch path p) then false
  else true

/-- Concatenation of a list of strings with the alternation bar between
consecutive elements, the semantics of joining with the bar separator. -/
def join_bar : List String → String
  | [] => ""
  | [r] => r
  | r :: rs => r ++ "|" ++ join_bar rs

/-- Source lines 40 to 49, build_bad_words: each word becomes a non-capturing
group of per-position character classes pairing the uppercase and lowercase
form of each character position (the zip of the uppercased and the lowercased
word), and the groups are joined with the alternation bar.  The function is
total; on the empty list the join is the empty string. -/
def build_bad_words (words : List String) : String :=
  join_bar (words.map (fun word =>
    "(?:" ++
      String.join (((word.data.map Char.toUpper).zip (word.data.map Char.toLower)).map
        (fun q => "[" ++ String.mk [q.1] ++ String.mk [q.2] ++ "]")) ++ ")"))

/-- Source line 176: the keyword list actually compiled by the entry point,
which replaces an empty user-supplied list by DEFAULT_BAD_WORDS through the
Python expression bad_words or DEFAULT_BAD_WORDS. -/
def main_bad_words (ws : List String) : String :=
  build_bad_words (if ws.isEmpty then DEFAULT_BAD_WORDS else ws)

/-- Compiled meaning of one per-character class of build_bad_words: the
character position matches the uppercase or the lowercase form. -/
def char_case_class (c : Char) : RE :=
  RE.cls (fun x => x == c.toUpper || x == c.toLower)

/-- Compiled meaning of the group build_bad_words emits for one word. -/
def word_pattern (w : String) : RE :=
  w.data.foldr (fun c r => RE.seq (char_case_class c) r) RE.eps

/-- Alternation of a list of patterns in input order; the empty alternation
matches the empty string, as the regex group with empty body does. -/
def alternation : List RE → RE
  | [] => RE.eps
  | [r] => r
  | r :: rs => RE.alt r (alternation rs)

/-- Compiled meaning of the full keyword alternation built by
build_bad_words. -/
def bad_words_re (ws : List String) : RE :=
  alternation (ws.map word_pattern)

/-- Character class a-z A-Z underscore, the first character of the optional
identifier suffix in build_regex_analyzers. -/
def ident_start (c : Char) : Bool := c.isAlpha || c == '_'

/-- Character class a-z A-Z 0-9 underscore, the continuation characters of
the optional identifier suffix. -/
def ident_cont (c : Char) : Bool := c.isAlphanum || c == '_'

/-- Compiled meaning of the optional identifier suffix group of
build_regex_analyzers, source line 61. -/
def ident_suffix : RE :=
  RE.opt (RE.seq (RE.cls ident_start) (RE.starCls ident_cont))

/-- Double or single quote, the quote class of the first default analyzer. -/
def is_quote_char (c : Char) : Bool := c == '"' || c == '\x27'

/-- Pattern requiring at least n characters of the class p: n mandatory
copies followed by a greedy star, the compiled meaning of a greedy brace
quantifier with lower bound n and no upper bound. -/
def at_least (n : Nat) (p : Char → Bool) : RE :=
  match n with
  | 0 => RE.starCls p
  | k + 1 => RE.seq (RE.cls p) (at_least k p)

/-- Greedy star of the space character. -/
def spaces : RE := RE.starCls (fun c => c == ' ')

/-- Character class colon or equals sign. -/
def colon_or_eq : RE := RE.cls (fun c => c == ':' || c == '=')

/-- Compiled meaning of the first entry of DEFAULT_ANALYZERS, source line 18:
optional spaces, colon or equals, optional spaces, a quote character, at
least four non-quote characters, a quote character.  Note that the opening
and the closing quote are independent occurrences of the same two-character
class, so nothing requires them to be equal. -/
def assignment_rule : RE :=
  RE.seq spaces (RE.seq colon_or_eq (RE.seq spaces
    (RE.seq (RE.cls is_quote_char)
      (RE.seq (at_least 4 (fun c => !is_quote_char c)) (RE.cls is_quote_char)))))

/-- Characters excluded by the negated class of the second entry of
DEFAULT_ANALYZERS, source line 18: both quotes, ampersand, space, comma,
semicolon, opening brace, both parentheses, opening angle bracket and
newline.  The closing brace and the closing angle bracket are not in the
class and are therefore allowed. -/
def url_bad_char (c : Char) : Bool :=
  c == '"' || c == '\x27' || c == '&' || c == ' ' || c == ',' || c == ';' ||
    c == '\x7b' || c == '(' || c == ')' || c == '<' || c == '\n'

/-- Compiled meaning of the second entry of DEFAULT_ANALYZERS: colon or
equals followed by at least four characters outside url_bad_char. -/
def url_rule : RE :=
  RE.seq colon_or_eq (at_least 4 (fun c => !url_bad_char c))

/-- Source lines 52 to 63, build_regex_analyzers: each analyzer is the
keyword alternation, then the optional identifier suffix, then the
structural rule, concatenated in that order. -/
def compile_analyzer (bad_words rule : RE) : RE :=
  RE.seq bad_words (RE.seq ident_suffix rule)

/-- First default analyzer: keyword alternation over DEFAULT_BAD_WORDS with
the assignment-style rule. -/
def analyzer1 : RE := compile_analyzer (bad_words_re DEFAULT_BAD_WORDS) assignment_rule

/-- Second default analyzer: keyword alternation over DEFAULT_BAD_WORDS with
the url-style rule. -/
def analyzer2 : RE := compile_analyzer (bad_words_re DEFAULT_BAD_WORDS) url_rule

/-- Whitespace characters stripped by the Python str.strip method on ASCII
text: space, tab, newline, carriage return, vertical tab and form feed. -/
def py_isspace (c : Char) : Bool :=
  c == ' ' || c == '\t' || c == '\n' || c == '\r' || c == '\x0b' || c == '\x0c'

/-- Embedding of line.strip(): remove leading and trailing whitespace. -/
def py_strip (s : String) : String :=
  String.mk (((s.data.dropWhile py_isspace).reverse.dropWhile py_isspace).reverse)

/-- Finding record appended by check_file_handler, source lines 83 to 88:
file path, text of the first match, zero-based line index, and the line with
leading and trailing whitespace stripped. -/
structure Finding where
  file : String
  target : String
  line : Nat
  string : String
deriving DecidableEq

/-- Abstraction of one file reached by the directory walk: its joined path,
the lines its text decodes to before any decoding failure (each line exactly
as the Python line iterator yields it, trailing newline included), and
whether iterating past those lines raises UnicodeDecodeError. -/
structure PyFile where
  path : String
  lines : List String
  decode_fails : Bool
deriving DecidableEq

/-- Body of the per-line loop of check_file_handler, source lines 74 to 88:
skip the line when its length exceeds max_length, otherwise run every
analyzer and, for each analyzer whose findall is non-empty on a line not
matched by any exclude pattern, emit one Finding built from the first match. -/
def line_findings (max_length : Nat) (analyzers patterns : List RE)
    (path : String) (i : Nat) (line : String) : List Finding :=
  if line.length > max_length then []
  else
    analyzers.filterMap (fun checker =>
      match findall checker line with
      | [] => none
      | t :: _ =>
        if check_exclude_pattern patterns line then none
        else some ⟨path, t, i, py_strip line⟩)

/-- Iteration of check_file_handler over the decoded lines, threading the
accumulated result list; when the file fails to decode past its good lines,
the iteration raises, modeled by the error case carrying the result
accumulated so far, exactly what the variable result holds at the raise. -/
def read_lines_result (max_length : Nat) (analyzers patterns : List RE)
    (path : String) (decode_fails : Bool) :
    Nat → List String → List Finding → Except (List Finding) (List Finding)
  | _, [], result =>
    if decode_fails then Except.error result else Except.ok result
  | i, line :: rest, result =>
    read_lines_result max_length analyzers patterns path decode_fails
      (i + 1) rest (result ++ line_findings max_length analyzers patterns path i line)

/-- Source lines 66 to 94, check_file_handler: evaluate all lines in order
with a zero-based index; a UnicodeDecodeError is caught and the result
accumulated so far is returned, so both outcomes of the iteration yield the
accumulated findings. -/
def check_file_handler (max_length : Nat) (analyzers patterns : List RE)
    (f : PyFile) : List Finding :=
  match read_lines_result max_length analyzers patterns f.path f.decode_fails 0 f.lines [] with
  | Except.ok result => result
  | Except.error result => result

/-- Loop body of start_digging, source lines 101 to 115, over the flattened
sequence of files produced by the directory walk: skip files rejected by
can_analyze_file, return the accumulated pair as soon as the counter already
exceeds the limit, otherwise increment the counter and append the findings
of the file. -/
def digging_loop (limit max_length : Nat) (analyzers patterns : List RE)
    (include_paths exclude_paths : List String) :
    List PyFile → Nat → List Finding → Nat × List Finding
  | [], counter, result => (counter, result)
  | f :: fs, counter, result =>
    if !(can_analyze_file include_paths exclude_paths f.path) then
      digging_loop limit max_length analyzers patterns include_paths exclude_paths fs counter result
    else if counter > limit then (counter, result)
    else
      digging_loop limit max_length analyzers patterns include_paths exclude_paths fs
        (counter + 1) (result ++ check_file_handler max_length analyzers patterns f)

/-- Source lines 97 to 117, start_digging, with the os.walk traversal
abstracted as the list of files it reaches in walk order. -/
def start_digging (files : List PyFile) (limit max_length : Nat)
    (analyzers patterns : List RE) (include_paths exclude_paths : List String) :
    Nat × List Finding :=
  digging_loop limit max_length analyzers patterns include_paths exclude_paths files 0 []

/-- Specification-side version of the assignment tail, built from the words
of the specification rather than from the source: the quoted string must lie
inside matching quotes, so the double-quoted and the single-quoted form are
separate alternatives whose opening and closing quote agree. -/
def spec_assignment_rule : RE :=
  RE.seq spaces (RE.seq colon_or_eq (RE.seq spaces
    (RE.alt
      (RE.seq (RE.cls (fun c => c == '"'))
        (RE.seq (at_least 4 (fun c => !is_quote_char c)) (RE.cls (fun c => c == '"'))))
      (RE.seq (RE.cls (fun c => c == '\x27'))
        (RE.seq (at_least 4 (fun c => !is_quote_char c)) (RE.cls (fun c => c == '\x27')))))))

/-- Specification-side assignment analyzer, for comparison with analyzer1. -/
def spec_assignment_analyzer : RE :=
  compile_analyzer (bad_words_re DEFAULT_BAD_WORDS) spec_assignment_rule

/-- Specification-side version of the url tail exclusions, built from the
words of the specification: quote, ampersand, space, comma, semicolon, brace
of either direction, parenthesis, angle bracket of either direction, or
newline. -/
def spec_url_bad_char (c : Char) : Bool :=
  url_bad_char c || c == '\x7d' || c == '>'

/-- Specification-side url analyzer, for comparison with analyzer2. -/
def spec_url_analyzer : RE :=
  compile_analyzer (bad_words_re DEFAULT_BAD_WORDS)
    (RE.seq colon_or_eq (at_least 4 (fun c => !spec_url_bad_char c)))

/-- Compiled meaning of the suppression pattern caret hash dot star used in
the specification example: under pattern.match the caret anchors at position
0, which match does anyway, so the pattern is a hash character followed by a
greedy run of non-newline characters. -/
def hash_comment_pattern : RE :=
  RE.seq (RE.cls (fun c => c == '#')) (RE.starCls (fun c => !(c == '\n')))

/-- Concrete credential line of exactly 15 characters. -/
def pw_line : String := "password=\"abcd\""

/-- Concrete line of 1001 characters that starts with a credential
assignment. -/
def long_line : String := pw_line ++ String.mk (List.replicate 986 'x')

/-- Concrete line matched by both default analyzers: the assignment analyzer
hits the quoted password and the url analyzer hits the unquoted secret. -/
def demo_line : String := "password = \"abcd\" secret=zzzz9999"

/-- Concrete file whose single good line holds a credential and whose
remaining bytes fail to decode. -/
def bad_file : PyFile := ⟨"bin", ["password=\"abcd1234\""], true⟩

/-- Claim C1, counterexample: with include equal to star dot py and exclude
equal to star test star, the path app/test_main.py matches an include glob
yet can_analyze_file rejects it, because the exclude list is still evaluated
after the include list matched; the claim says the path is accepted. -/
theorem include_exclude_counterexample :
    can_analyze_file ["*.py"] ["*test*"] "app/test_main.py" = false := by decide

/-- Claim C1, amended: the path filter accepts a path exactly when the
include list is empty or some include glob matches, and additionally no
exclude glob matches.  Matching an include glob does not short-circuit past
the exclude check; the only short circuit is the rejection when a non-empty
include list fails to match.  Consequently app/main.py is accepted while
app/test_main.py, which matches both an include and an exclude glob, is
rejected: exclude wins when both match. -/
theorem can_analyze_file_spec :
    (∀ (inc exc : List String) (path : String),
        can_analyze_file inc exc path = true ↔
          ((inc = [] ∨ ∃ p ∈ inc, fnmatch path p = true)
            ∧ ∀ p ∈ exc, fnmatch path p = false))
    ∧ can_analyze_file ["*.py"] ["*test*"] "app/main.py" = true
    ∧ can_analyze_file ["*.py"] ["*test*"] "app/test_main.py" = false := by
  refine ⟨?_, by decide, by decide⟩
  intro inc exc path
  have key : can_analyze_file inc exc path
      = ((inc.isEmpty || inc.any (fun p => fnmatch path p))
          && !(exc.any (fun p => fnmatch path p))) := by
    unfold can_analyze_file
    cases hIe : inc.isEmpty <;> cases hIa : inc.any (fun p => fnmatch path p) <;>
      cases hEe : exc.isEmpty <;> cases hEa : exc.any (fun p => fnmatch path p) <;>
        simp_all [List.isEmpty_iff]
  rw [key]
  simp only [Bool.and_eq_true, Bool.or_eq_true, Bool.not_eq_true',
    List.isEmpty_iff, List.any_eq_true, List.any_eq_false]
  constructor
  · rintro ⟨hi, hall⟩
    exact ⟨hi, fun p hp => by simpa using hall p hp⟩
  · rintro ⟨hi, hall⟩
    exact ⟨hi, fun p hp => by simpa using hall p hp⟩

/-- Claim C3, counterexample: the assignment-style detector accepts a quoted
string whose opening quote is double and whose closing quote is single,
because the two quote positions are independent occurrences of the same
character class; the specification-side detector requiring matching quotes
rejects the same line. -/
theorem assignment_quote_mismatch_counterexample :
    re_search analyzer1 "password = \"abcd\x27" = true
    ∧ re_search spec_assignment_analyzer "password = \"abcd\x27" = false :=
  ⟨by decide, by decide⟩

/-- Claim C3, amended: the assignment-style detector matches a keyword with
optional identifier suffix, optional spaces, colon or equals, optional
spaces, then a quote character, at least four non-quote characters and a
quote character, where the opening and the closing quote may independently
be double or single and need not match.  It matches the two positive
examples of the claim, rejects the three-character example, and also matches
every mixed-quote combination. -/
theorem assignment_detector_examples :
    re_search analyzer1 "password = \"abcd\"" = true
    ∧ re_search analyzer1 "secret: \x27xyzw1234\x27" = true
    ∧ re_search analyzer1 "password = \"abc\"" = false
    ∧ re_search analyzer1 "password = \x27abcd\x27" = true
    ∧ re_search analyzer1 "password = \"abcd\x27" = true
    ∧ re_search analyzer1 "password = \x27abcd\"" = true :=
  ⟨by decide, by decide, by decide, by decide, by decide, by decide⟩

/-- Claim C4, counterexample: the url-style detector accepts tails made of
closing braces or closing angle brackets, because the negated class excludes
only the opening brace and the opening angle bracket; the specification-side
detector excluding both directions rejects the same lines. -/
theorem url_detector_brace_counterexample :
    re_search analyzer2 "token=\x7d\x7d\x7d\x7d" = true
    ∧ re_search analyzer2 "token=>>>>" = true
    ∧ re_search spec_url_analyzer "token=\x7d\x7d\x7d\x7d" = false
    ∧ re_search spec_url_analyzer "token=>>>>" = false :=
  ⟨by decide, by decide, by decide, by decide⟩

/-- Claim C4, amended: the url-style detector matches a keyword with optional
identifier suffix, colon or equals, then at least four consecutive characters
none of which is a quote, ampersand, space, comma, semicolon, opening brace,
parenthesis, opening angle bracket, or newline; the closing brace and the
closing angle bracket are allowed.  It matches token=abcdef123, rejects
token= and the opening-brace example, and accepts tails of closing braces or
closing angle brackets. -/
theorem url_detector_examples :
    re_search analyzer2 "token=abcdef123" = true
    ∧ re_search analyzer2 "token= " = false
    ∧ re_search analyzer2 "token=\x7babcd\x7d" = false
    ∧ re_search analyzer2 "token=\x7d\x7d\x7d\x7d" = true
    ∧ re_search analyzer2 "token=>>>>" = true :=
  ⟨by decide, by decide, by decide, by decide, by decide⟩

/-- Claim C5, counterexample: on the empty keyword list build_bad_words
returns the empty pattern string instead of failing; the source contains no
ConfigurationError and no raise statement, so the builder produces a pattern
rather than refusing to run. -/
theorem build_bad_words_empty_counterexample :
    build_bad_words [] = "" := rfl

/-- Claim C5, amended: build_bad_words is total and returns the empty pattern
on the empty list; the entry point never compiles that empty alternation
because it replaces an empty keyword list by DEFAULT_BAD_WORDS, whose built
pattern is non-empty, and leaves any non-empty list unchanged. -/
theorem build_bad_words_empty_fallback :
    build_bad_words [] = ""
    ∧ main_bad_words [] = build_bad_words DEFAULT_BAD_WORDS
    ∧ build_bad_words DEFAULT_BAD_WORDS ≠ ""
    ∧ ∀ ws : List String, ws ≠ [] → main_bad_words ws = build_bad_words ws := by
  refine ⟨rfl, rfl, by decide, ?_⟩
  intro ws h
  cases ws with
  | nil => exact absurd rfl h
  | cons a t => rfl

/-- Witness for the amended claim C5 at a concrete non-empty list. -/
theorem build_bad_words_fallback_witness :
    (["x"] : List String) ≠ [] ∧ main_bad_words ["x"] = build_bad_words ["x"] :=
  ⟨by decide, build_bad_words_empty_fallback.2.2.2 ["x"] (by decide)⟩

/-- Claim C6: the suppression check is true exactly when some pattern in the
list matches the raw line from position 0, it is always false for the empty
pattern list, and a suppressed line contributes no Finding even when a
detector matches it: with the hash-comment pattern, the commented credential
line is matched by the assignment analyzer yet yields no Finding.  The
recursion of check_exclude_pattern returns at the first matching pattern,
mirroring the short-circuit of the source loop. -/
theorem check_exclude_pattern_spec :
    (∀ (ps : List RE) (line : String),
        check_exclude_pattern ps line = true ↔ ∃ p ∈ ps, re_match p line = true)
    ∧ (∀ line : String, check_exclude_pattern [] line = false)
    ∧ re_search analyzer1 "# password = \"example1234\"" = true
    ∧ check_file_handler 1000 [analyzer1, analyzer2] [hash_comment_pattern]
        ⟨"f", ["# password = \"example1234\""], false⟩ = [] := by
  refine ⟨?_, fun _ => rfl, by decide, by decide⟩
  intro ps line
  induction ps with
  | nil => simp [check_exclude_pattern]
  | cons p ps ih =>
    by_cases h : re_match p line = true
    · simp [check_exclude_pattern, h]
    · simp only [check_exclude_pattern, h, if_neg, Bool.false_eq_true, ite_false, ih]
      simp [h]

/-- Helper: the line iteration of check_file_handler computes, in either
outcome, the accumulator followed by the findings of the lines enumerated
from the starting index. -/
theorem read_lines_result_eq (m : Nat) (an pat : List RE) (path : String) (d : Bool) :
    ∀ (ls : List String) (i : Nat) (acc : List Finding),
      read_lines_result m an pat path d i ls acc
        = (if d then Except.error else Except.ok)
            (acc ++ ((ls.enumFrom i).map (fun q => line_findings m an pat path q.1 q.2)).flatten) := by
  intro ls
  induction ls with
  | nil =>
    intro i acc
    cases d <;> simp [read_lines_result, List.enumFrom]
  | cons l t ih =>
    intro i acc
    rw [read_lines_result, ih]
    cases d <;> simp [List.enumFrom, List.append_assoc]

/-- Helper: check_file_handler returns exactly the concatenated per-line
findings over the zero-based enumeration of the decoded lines, whether or
not the file fails to decode afterwards. -/
theorem check_file_handler_enum (m : Nat) (an pat : List RE) (f : PyFile) :
    check_file_handler m an pat f
      = ((f.lines.enum).map (fun q => line_findings m an pat f.path q.1 q.2)).flatten := by
  unfold check_file_handler
  rw [read_lines_result_eq]
  cases f.decode_fails <;> simp [List.enum]

/-- Helper: unfolding equation of the scanning loop at a cons cell. -/
theorem digging_loop_cons (limit m : Nat) (an pat : List RE) (inc exc : List String)
    (y : PyFile) (rest : List PyFile) (counter : Nat) (acc : List Finding) :
    digging_loop limit m an pat inc exc (y :: rest) counter acc
      = if !(can_analyze_file inc exc y.path) then
          digging_loop limit m an pat inc exc rest counter acc
        else if counter > limit then (counter, acc)
        else digging_loop limit m an pat inc exc rest (counter + 1)
            (acc ++ check_file_handler m an pat y) := rfl

/-- Helper: the scanning loop, started below the ceiling with enough eligible
files remaining to reach it, stops with the counter at limit plus one and
the accumulated findings of exactly the first limit plus one minus counter
eligible files. -/
theorem digging_loop_ceiling (limit m : Nat) (an pat : List RE) (inc exc : List String) :
    ∀ (files : List PyFile) (counter : Nat) (acc : List Finding),
      counter ≤ limit + 1 →
      limit + 1 ≤ counter + (files.filter (fun f => can_analyze_file inc exc f.path)).length →
      digging_loop limit m an pat inc exc files counter acc
        = (limit + 1,
           acc ++ (((files.filter (fun f => can_analyze_file inc exc f.path)).take
              (limit + 1 - counter)).map (check_file_handler m an pat)).flatten) := by
  intro files
  induction files with
  | nil =>
    intro counter acc h1 h2
    simp only [List.filter_nil, List.length_nil, Nat.add_zero] at h2
    have hce : counter = limit + 1 := Nat.le_antisymm h1 h2
    subst hce
    simp [digging_loop]
  | cons f fs ih =>
    intro counter acc h1 h2
    rw [digging_loop_cons]
    cases hca : can_analyze_file inc exc f.path with
    | false =>
      rw [List.filter_cons_of_neg (by simp [hca])] at h2 ⊢
      rw [if_pos (show (!false) = true by rfl)]
      exact ih counter acc h1 h2
    | true =>
      rw [List.filter_cons_of_pos (by rw [hca])] at h2 ⊢
      rw [if_neg (show ¬ (!true) = true by simp)]
      by_cases hc : counter > limit
      · have hce : counter = limit + 1 := Nat.le_antisymm h1 hc
        subst hce
        rw [if_pos (Nat.lt_succ_self limit)]
        simp
      · rw [if_neg hc]
        rw [ih (counter + 1) _ (by omega) (by simp only [List.length_cons] at h2; omega)]
        have htake : limit + 1 - counter = (limit - counter) + 1 := by omega
        have htake2 : limit + 1 - (counter + 1) = limit - counter := by omega
        rw [htake, htake2, List.take_succ_cons]
        simp [List.append_assoc]

/-- Helper: replacing one file of the walk by another with the same path and
the same handler output does not change the result of the scanning loop. -/
theorem digging_loop_replace (limit m : Nat) (an pat : List RE) (inc exc : List String)
    (g g2 : PyFile) (hpath : g.path = g2.path)
    (hhandler : check_file_handler m an pat g = check_file_handler m an pat g2)
    (post : List PyFile) :
    ∀ (pre : List PyFile) (counter : Nat) (acc : List Finding),
      digging_loop limit m an pat inc exc (pre ++ g :: post) counter acc
        = digging_loop limit m an pat inc exc (pre ++ g2 :: post) counter acc := by
  intro pre
  induction pre with
  | nil =>
    intro counter acc
    simp only [List.nil_append]
    rw [digging_loop_cons, digging_loop_cons, hpath, hhandler]
  | cons x xs ih =>
    intro counter acc
    simp only [List.cons_append]
    rw [digging_loop_cons, digging_loop_cons]
    cases hx : can_analyze_file inc exc x.path with
    | false =>
      rw [if_pos (show (!false) = true by rfl), if_pos (show (!false) = true by rfl)]
      exact ih counter acc
    | true =>
      rw [if_neg (show ¬ (!true) = true by simp), if_neg (show ¬ (!true) = true by simp)]
      by_cases hc : counter > limit
      · rw [if_pos hc, if_pos hc]
      · rw [if_neg hc, if_neg hc]
        exact ih (counter + 1) (acc ++ check_file_handler m an pat x)

/-- Claim C2: when the eligible files outnumber the limit, the scan counts
and evaluates exactly limit plus one of them, the returned counter equals
limit plus one, and the returned findings are those of the first limit plus
one eligible files, as an ordinary value of the total function, not an
error.  The strict greater-than comparison happens before the increment, so
the counter passes the limit by exactly one. -/
theorem start_digging_ceiling (files : List PyFile) (limit max_length : Nat)
    (analyzers patterns : List RE) (include_paths exclude_paths : List String)
    (h : limit <
      (files.filter (fun f => can_analyze_file include_paths exclude_paths f.path)).length) :
    start_digging files limit max_length analyzers patterns include_paths exclude_paths
      = (limit + 1,
         (((files.filter (fun f => can_analyze_file include_paths exclude_paths f.path)).take
            (limit + 1)).map (check_file_handler max_length analyzers patterns)).flatten) := by
  unfold start_digging
  rw [digging_loop_ceiling limit max_length analyzers patterns include_paths exclude_paths
      files 0 [] (by omega) (by omega)]
  simp

/-- Witness for claim C2: three eligible empty files against a limit of one
yield a counter of two and the findings of the first two files. -/
theorem start_digging_ceiling_witness :
    1 < (([⟨"a", [], false⟩, ⟨"b", [], false⟩, ⟨"c", [], false⟩] : List PyFile).filter
          (fun f => can_analyze_file [] [] f.path)).length
    ∧ start_digging [⟨"a", [], false⟩, ⟨"b", [], false⟩, ⟨"c", [], false⟩] 1 1000
        [analyzer1, analyzer2] [] [] []
        = (1 + 1,
           (((([⟨"a", [], false⟩, ⟨"b", [], false⟩, ⟨"c", [], false⟩] : List PyFile).filter
                (fun f => can_analyze_file [] [] f.path)).take (1 + 1)).map
              (check_file_handler 1000 [analyzer1, analyzer2] [])).flatten) :=
  ⟨by decide,
   start_digging_ceiling [⟨"a", [], false⟩, ⟨"b", [], false⟩, ⟨"c", [], false⟩]
     1 1000 [analyzer1, analyzer2] [] [] [] (by decide)⟩

/-- Claim C7: on a line that is not suppressed and not over the length
limit, the findings of the line are in bijection with the analyzers whose
findall is non-empty, so each detector contributes at most one Finding per
line and distinct matching detectors each contribute their own; every
finding carries the file path, the zero-based line index, the stripped line,
and as target the first element of some analyzer's findall on the line; and
the whole handler output is exactly the concatenation of the per-line
findings over the zero-based enumeration of the file's lines. -/
theorem finding_shape (max_length : Nat) (analyzers patterns : List RE)
    (path : String) (i : Nat) (line : String)
    (hsup : check_exclude_pattern patterns line = false)
    (hlen : ¬ line.length > max_length) :
    (line_findings max_length analyzers patterns path i line).length
      = (analyzers.filter (fun a => !(findall a line).isEmpty)).length
    ∧ (∀ fd ∈ line_findings max_length analyzers patterns path i line,
        fd.file = path ∧ fd.line = i ∧ fd.string = py_strip line
          ∧ ∃ a ∈ analyzers, (findall a line).head? = some fd.target)
    ∧ (∀ f : PyFile, check_file_handler max_length analyzers patterns f
        = ((f.lines.enum).map
            (fun q => line_findings max_length analyzers patterns f.path q.1 q.2)).flatten) := by
  refine ⟨?_, ?_, fun f => check_file_handler_enum max_length analyzers patterns f⟩
  · unfold line_findings
    rw [if_neg hlen]
    simp only [hsup, Bool.false_eq_true, if_false]
    induction analyzers with
    | nil => rfl
    | cons a as ih =>
      cases hfa : findall a line with
      | nil => simp [List.filterMap_cons, hfa, List.filter_cons, ih]
      | cons t ts => simp [List.filterMap_cons, hfa, List.filter_cons, ih]
  · intro fd hfd
    unfold line_findings at hfd
    rw [if_neg hlen] at hfd
    rw [List.mem_filterMap] at hfd
    obtain ⟨a, ha, hg⟩ := hfd
    cases hfa : findall a line with
    | nil => rw [hfa] at hg; exact absurd hg (by simp)
    | cons t ts =>
      rw [hfa] at hg
      rw [hsup] at hg
      simp only [Bool.false_eq_true, if_false] at hg
      cases hg
      exact ⟨rfl, rfl, rfl, a, ha, by rw [hfa]; rfl⟩

/-- Witness for claim C7 on a concrete line hit by both default analyzers
with no suppression patterns. -/
theorem finding_shape_witness :
    check_exclude_pattern [] demo_line = false
    ∧ ¬ demo_line.length > 1000
    ∧ (line_findings 1000 [analyzer1, analyzer2] [] "w" 5 demo_line).length
        = (([analyzer1, analyzer2] : List RE).filter
            (fun a => !(findall a demo_line).isEmpty)).length :=
  ⟨rfl, by decide,
   (finding_shape 1000 [analyzer1, analyzer2] [] "w" 5 demo_line rfl (by decide)).1⟩

/-- Claim C8: a line whose length exceeds max_length contributes no Finding
regardless of its content, because the length test precedes every analyzer. -/
theorem long_line_skipped (max_length : Nat) (analyzers patterns : List RE)
    (path : String) (i : Nat) (line : String) (h : line.length > max_length) :
    line_findings max_length analyzers patterns path i line = [] := by
  unfold line_findings
  rw [if_pos h]

set_option maxRecDepth 20000 in
/-- Witness for claim C8: a 1001-character line containing a credential
assignment produces no Finding under the default maximum length of 1000. -/
theorem long_line_skipped_witness :
    long_line.length > 1000
    ∧ line_findings 1000 [analyzer1, analyzer2] [] "f" 0 long_line = [] :=
  ⟨by decide, long_line_skipped 1000 [analyzer1, analyzer2] [] "f" 0 long_line (by decide)⟩

/-- Claim C9: for a file whose content fails to decode after its good lines,
the line iteration really ends in the modeled UnicodeDecodeError carrying the
findings collected before the failure, yet check_file_handler returns exactly
those findings as an ordinary value, the same output as the error-free file
with the same lines, so no error is surfaced to the caller; and the
surrounding scan is unchanged when the failing file is replaced by its clean
truncation, so the walk continues with the remaining files. -/
theorem decode_failure_recovery (max_length : Nat) (analyzers patterns : List RE)
    (f : PyFile) (h : f.decode_fails = true) :
    read_lines_result max_length analyzers patterns f.path f.decode_fails 0 f.lines []
      = Except.error (((f.lines.enum).map
          (fun q => line_findings max_length analyzers patterns f.path q.1 q.2)).flatten)
    ∧ check_file_handler max_length analyzers patterns f
      = check_file_handler max_length analyzers patterns ⟨f.path, f.lines, false⟩
    ∧ check_file_handler max_length analyzers patterns f
      = ((f.lines.enum).map
          (fun q => line_findings max_length analyzers patterns f.path q.1 q.2)).flatten
    ∧ ∀ (pre post : List PyFile) (limit : Nat) (inc exc : List String),
        start_digging (pre ++ f :: post) limit max_length analyzers patterns inc exc
          = start_digging (pre ++ ⟨f.path, f.lines, false⟩ :: post)
              limit max_length analyzers patterns inc exc := by
  have h1 := check_file_handler_enum max_length analyzers patterns f
  have h2 := check_file_handler_enum max_length analyzers patterns ⟨f.path, f.lines, false⟩
  refine ⟨?_, by rw [h1, h2], h1, ?_⟩
  · rw [read_lines_result_eq, h]
    simp [List.enum]
  · intro pre post limit inc exc
    unfold start_digging
    exact digging_loop_replace limit max_length analyzers patterns inc exc
      f ⟨f.path, f.lines, false⟩ rfl (by rw [h1, h2]) post pre 0 []

/-- Witness for claim C9: a decode-failing file whose single good line holds
a credential returns that finding, identical to the clean file. -/
theorem decode_failure_recovery_witness :
    bad_file.decode_fails = true
    ∧ check_file_handler 1000 [analyzer1, analyzer2] [] bad_file
        = check_file_handler 1000 [analyzer1, analyzer2] [] ⟨bad_file.path, bad_file.lines, false⟩
    ∧ check_file_handler 1000 [analyzer1, analyzer2] [] bad_file
        = [⟨"bin", "password=\"abcd1234\"", 0, "password=\"abcd1234\""⟩] :=
  ⟨rfl, (decode_failure_recovery 1000 [analyzer1, analyzer2] [] bad_file rfl).2.1, by decide⟩

/-- Claim C10: the length test applies to the raw line including its
trailing newline, so a line whose visible content has exactly max_length
characters measures max_length plus one and is skipped, producing no
Finding. -/
theorem newline_counted_in_length (max_length : Nat) (analyzers patterns : List RE)
    (path : String) (i : Nat) (s : String) (h : s.length = max_length) :
    (s.push '\n').length = max_length + 1
    ∧ line_findings max_length analyzers patterns path i (s.push '\n') = [] := by
  have hl : (s.push '\n').length = max_length + 1 := by
    rw [String.length_push, h]
  refine ⟨hl, ?_⟩
  unfold line_findings
  rw [hl]
  simp

/-- Witness for claim C10: with max_length 15, the 15-character credential
line produces a Finding on its own but is skipped once its trailing newline
is included. -/
theorem newline_counted_in_length_witness :
    pw_line.length = 15
    ∧ ((pw_line.push '\n').length = 15 + 1
        ∧ line_findings 15 [analyzer1, analyzer2] [] "f" 0 (pw_line.push '\n') = [])
    ∧ line_findings 15 [analyzer1, analyzer2] [] "f" 0 pw_line ≠ [] :=
  ⟨by decide,
   newline_counted_in_length 15 [analyzer1, analyzer2] [] "f" 0 pw_line (by decide),
   by decide⟩

end PassFinder
